import Mathlib

/-!
Shallow embedding of the apalis SQLite storage backend
(`src/packages/apalis-sql/src/sqlite.rs`), the `Notify` channel
(`src/packages/apalis-core/src/notify.rs`) and the poll loop, together with
theorems settling the specification claims.

The `Jobs` table is modelled as a list of rows with named fields; SQL
statements are modelled by the row-level predicates and updates they perform.
-/

namespace Apalis

/-- Job lifecycle states, as stored in the `status` column. -/
inductive JobStatus where
  | Pending
  | Running
  | Done
  | Failed
  | Retry
  | Killed
  deriving DecidableEq, Repr

/-- Modelled from the spec: one row of the `Jobs` table.  The migration DDL is
not under `src/`; the field list follows the spec's persistent layout
(`id, payload, job_type, status, attempts, max_attempts, run_at, lock_by,
lock_at, done_at, last_error`), with the payload kept as the serialized
string the code binds.  Timestamps are Unix epoch seconds as `Int`. -/
structure JobRow where
  id : String
  payload : String
  job_type : String
  status : JobStatus
  attempts : Int
  max_attempts : Int
  run_at : Int
  lock_by : Option String
  lock_at : Option Int
  done_at : Option Int
  last_error : Option String
  deriving DecidableEq, Repr

/-- The `Jobs` table. -/
abbrev DB := List JobRow

/-- `push` (sqlite.rs, `Storage::push`): serializes the job with the given
encoder and executes
`INSERT INTO Jobs VALUES (?1, ?2, ?3, 'Pending', 0, 25, strftime('%s','now'),
NULL, NULL, NULL, NULL)` binding the serialized payload, the fresh id and the
job type. -/
def push {T : Type} (encode : T → String) (db : DB) (job : T)
    (newId jobType : String) (now : Int) : DB :=
  db ++ [{ id := newId, payload := encode job, job_type := jobType,
           status := JobStatus.Pending, attempts := 0, max_attempts := 25,
           run_at := now, lock_by := none, lock_at := none,
           done_at := none, last_error := none }]

/-- `fetch_by_id` (sqlite.rs): `SELECT * FROM Jobs WHERE id = ?1`,
`fetch_optional`. -/
def fetch_by_id (db : DB) (jobId : String) : Option JobRow :=
  db.find? (fun r => r.id = jobId)

/-- The WHERE clause of the candidate fetch in `stream_jobs` (sqlite.rs):
`(status = 'Pending' OR (status = 'Failed' AND attempts < max_attempts))
AND run_at < ?1 AND job_type = ?2`, with `?1 = now` and `?2 = T::NAME`. -/
def fetchPred (r : JobRow) (now : Int) (jobType : String) : Bool :=
  (r.status = JobStatus.Pending ∨
    (r.status = JobStatus.Failed ∧ r.attempts < r.max_attempts)) ∧
  r.run_at < now ∧ r.job_type = jobType

/-- The candidate SELECT of `stream_jobs` including its `LIMIT ?3` clause:
matching rows in table order, truncated to `buffer_size`. -/
def streamSelect (db : DB) (now : Int) (jobType : String)
    (buffer_size : Nat) : List JobRow :=
  (db.filter (fun r => fetchPred r now jobType)).take buffer_size

/-- Eligibility exactly as Invariant 5 of the spec words it:
`run_at ≤ now ∧ job_type = W ∧ (Pending ∨ (Failed ∧ attempts <
max_attempts))`.  Kept separate from `fetchPred` (which embeds the code) so
the two can be compared. -/
def specEligible (r : JobRow) (now : Int) (jobType : String) : Bool :=
  r.run_at ≤ now ∧ r.job_type = jobType ∧
  (r.status = JobStatus.Pending ∨
    (r.status = JobStatus.Failed ∧ r.attempts < r.max_attempts))

/-- The WHERE clause of the claim UPDATE in `fetch_next` (sqlite.rs):
`id = ?1 AND job_type = ?4 AND status = 'Pending' AND lock_by IS NULL`. -/
def updateTouches (r : JobRow) (jobId jobType : String) : Bool :=
  r.id = jobId ∧ r.job_type = jobType ∧
  r.status = JobStatus.Pending ∧ r.lock_by = none

/-- Effect of the claim UPDATE on the table:
`UPDATE Jobs SET status = 'Running', lock_by = ?2, lock_at = ?3 WHERE ...`. -/
def dbUpdateClaim (db : DB) (jobId workerId : String) (now : Int)
    (jobType : String) : DB :=
  db.map (fun r =>
    if updateTouches r jobId jobType then
      { r with status := JobStatus.Running, lock_by := some workerId,
               lock_at := some now }
    else r)

/-- The follow-on SELECT of the claim statement:
`Select * from Jobs where id = ?1 AND lock_by = ?2 AND job_type = ?4`,
`fetch_optional`. -/
def dbSelectClaim (db : DB) (jobId workerId jobType : String) :
    Option JobRow :=
  db.find? (fun r => r.id = jobId ∧ r.lock_by = some workerId ∧
    r.job_type = jobType)

/-- `fetch_next` (sqlite.rs) on a `Some` candidate: run the compound
UPDATE-then-SELECT statement and return the updated table together with the
row the SELECT produced (the `Option<Request<T>>` result). -/
def fetch_next (db : DB) (jobId workerId : String) (now : Int)
    (jobType : String) : DB × Option JobRow :=
  let db2 := dbUpdateClaim db jobId workerId now jobType
  (db2, dbSelectClaim db2 jobId workerId jobType)

/-- `fetch_next` on its `Option<Request<T>>` argument: a `None` candidate
short-circuits to `Ok(None)` without touching the table. -/
def fetch_next_opt (db : DB) (cand : Option JobRow) (workerId : String)
    (now : Int) (jobType : String) : DB × Option JobRow :=
  match cand with
  | none => (db, none)
  | some j => fetch_next db j.id workerId now jobType

/-- `reschedule` (sqlite.rs): `UPDATE Jobs SET status = 'Failed',
done_at = NULL, lock_by = NULL, lock_at = NULL, run_at = ?2 WHERE id = ?1`
with `?2 = now + wait` (`wait` is the duration in whole seconds). -/
def reschedule (db : DB) (jobId : String) (wait now : Int) : DB :=
  db.map (fun r =>
    if r.id = jobId then
      { r with status := JobStatus.Failed, done_at := none,
               lock_by := none, lock_at := none, run_at := now + wait }
    else r)

/-- `len` (sqlite.rs):
`Select Count(*) as count from Jobs where status='Pending'`. -/
def len (db : DB) : Int :=
  ((db.filter (fun r => r.status = JobStatus.Pending)).length : Int)

/-- Result of a Rust call that may panic: panics are modelled as
`Except.error msg`. -/
abbrev PanicOr (α : Type) := Except String α

/-- `is_empty` (sqlite.rs): the body is `todo!()`, which panics
unconditionally with "not yet implemented"; no query is ever issued. -/
def is_empty (_db : DB) : PanicOr Bool :=
  Except.error "not yet implemented"

/-! ## The polling stream (`stream_jobs`)

`stream_jobs` is an `async_stream::try_stream!` generator: one loop iteration
(a *tick*) sleeps, acquires a connection, runs the candidate SELECT and yields
one `fetch_next` result per candidate.  Every fallible step uses `?`, whose
`try_stream!` semantics is: yield the error as the stream's final item and end
the generator.  A tick's interaction with the backend is summarised by the
items it would yield and whether one of its SQL steps failed (connection
acquisition, the SELECT, or a `fetch_next`); errors are all mapped to
`StreamError::BrokenPipe` before `?`. -/

/-- One item of the stream `stream_jobs` yields:
`Result<Option<Request<T>>, StreamError>` where every error is
`BrokenPipe`. -/
inductive StreamItem where
  | jobItem (j : Option JobRow)
  | brokenPipeItem
  deriving DecidableEq, Repr

/-- Backend behaviour during one tick: the `fetch_next` results produced
before any failure, and whether a SQL step then failed. -/
structure TickRes where
  items : List (Option JobRow)
  failed : Bool
  deriving DecidableEq, Repr

/-- The stream items one tick emits: its claim results, then a single
`BrokenPipe` error item when a step failed. -/
def tickItems (t : TickRes) : List StreamItem :=
  t.items.map StreamItem.jobItem ++
    (if t.failed then [StreamItem.brokenPipeItem] else [])

/-- Whether the generator has ended before tick `n`: `try_stream!` ends the
generator right after yielding an error item, so the stream is dead from the
first failed tick on. -/
def streamDead (outcomes : Nat → TickRes) : Nat → Bool
  | 0 => false
  | n + 1 => streamDead outcomes n || (outcomes n).failed

/-- All items the stream has emitted after `n` ticks of the schedule
`outcomes`. -/
def emitted (outcomes : Nat → TickRes) : Nat → List StreamItem
  | 0 => []
  | n + 1 =>
      if streamDead outcomes n then emitted outcomes n
      else emitted outcomes n ++ tickItems (outcomes n)

/-! ## The worker poll loop (`Backend::poll` in sqlite.rs)

The heartbeat arm runs `self.keep_alive_at::<T>(&worker, now).await.unwrap()`
each iteration; the dispatch arm runs
`poll.send(fut.await.unwrap().unwrap().unwrap()).unwrap()` where `fut.await`
is the next stream element of type
`Option<Result<Option<Request<T>>, Error>>`.  `.unwrap()` panics on `None` /
`Err`. -/

/-- Rust `Option::unwrap`. -/
def unwrapO {α : Type} (o : Option α) : PanicOr α :=
  match o with
  | some a => Except.ok a
  | none => Except.error "called Option::unwrap on a None value"

/-- Rust `Result::unwrap` (the payload of the error is dropped). -/
def unwrapR {α β : Type} (r : Except β α) : PanicOr α :=
  match r with
  | Except.ok a => Except.ok a
  | Except.error _ => Except.error "called Result::unwrap on an Err value"

/-- One heartbeat iteration of `poll`: the `keep_alive_at` result is
`.unwrap()`ed, so a write error panics the loop. -/
def heartbeatIter (writeRes : Except String Unit) : PanicOr Unit :=
  unwrapR writeRes

/-- One dispatch iteration of `poll`: the value handed to `poll.send` is
`fut.await.unwrap().unwrap().unwrap()`. -/
def dispatchIter (item : Option (Except String (Option JobRow))) :
    PanicOr JobRow := do
  let r ← unwrapO item
  let o ← unwrapR r
  unwrapO o

/-! ## The `Notify` channel (notify.rs)

`Notify::new` builds a `futures::channel::mpsc` channel of buffer capacity 10
and keeps both the `Sender` and the mutex-wrapped shared `Receiver` in the
struct; `Clone` clones both, so every handle owns a live `Sender`.  The
channel is modelled as its buffered queue plus a count of live senders. -/

/-- State of one `Notify<T>` channel: the buffered items, the fixed buffer
capacity, and how many `Sender` handles are alive (one per `Notify` handle,
plus any transient clones). -/
structure Chan (T : Type) where
  buf : List T
  cap : Nat
  handleCount : Nat
  deriving Repr

/-- `Notify::new`: `channel(10)` with a single handle. -/
def Chan.mk0 (T : Type) : Chan T :=
  { buf := [], cap := 10, handleCount := 1 }

/-- `Clone for Notify`: clones the `Sender` (a new live sender) and the
`Arc` of the receiver. -/
def Chan.cloneHandle {T : Type} (c : Chan T) : Chan T :=
  { c with handleCount := c.handleCount + 1 }

/-- Dropping a `Notify` handle drops its `Sender`. -/
def Chan.dropHandle {T : Type} (c : Chan T) : Chan T :=
  { c with handleCount := c.handleCount - 1 }

/-- `Sender::try_send`: enqueue when the buffer has free space, otherwise
fail without blocking; returns the new state and whether the item was
accepted. -/
def Chan.trySend {T : Type} (c : Chan T) (t : T) : Chan T × Bool :=
  if c.buf.length < c.cap then ({ c with buf := c.buf ++ [t] }, true)
  else (c, false)

/-- `Notify::notify` (notify.rs): `let _ = self.sender.clone().try_send(value)`
— the result is discarded, so a full buffer silently drops the item. -/
def Chan.notify {T : Type} (c : Chan T) (t : T) : Chan T :=
  (c.trySend t).1

/-- `Notifier::notify for Notify` (notify.rs): calls `Notify::notify` and
returns `Ok(())` unconditionally. -/
def Chan.notifierNotify {T : Type} (c : Chan T) (t : T) :
    Chan T × Except Unit Unit :=
  (c.notify t, Except.ok ())

/-- What one poll of the shared receiver observes. -/
inductive RecvOutcome (T : Type) where
  | item (t : T)
  | pendingWake
  | closed

/-- `Receiver::next` as observed by `Notify::notified`: an item when one is
buffered; when the buffer is empty, `None` (channel closed) exactly when no
sender is alive, otherwise the future stays pending. -/
def Chan.recvPoll {T : Type} (c : Chan T) : RecvOutcome T :=
  match c.buf with
  | t :: _ => RecvOutcome.item t
  | [] => if c.handleCount = 0 then RecvOutcome.closed
          else RecvOutcome.pendingWake

/-! ## Concrete rows used by counterexamples and witnesses -/

/-- A freshly pushed pending row whose `run_at` is the current tick. -/
def rowC2 : JobRow :=
  { id := "j2", payload := "p2", job_type := "email",
    status := JobStatus.Pending, attempts := 0, max_attempts := 25,
    run_at := 100, lock_by := none, lock_at := none,
    done_at := none, last_error := none }

/-- A row already claimed by worker `w1` (status `Running`,
`lock_by = w1`). -/
def rowC3 : JobRow :=
  { id := "j3", payload := "p3", job_type := "email",
    status := JobStatus.Running, attempts := 1, max_attempts := 25,
    run_at := 0, lock_by := some "w1", lock_at := some 50,
    done_at := none, last_error := none }

/-- An unclaimed pending row used for the contended-claim scenario. -/
def rowC4 : JobRow :=
  { id := "j4", payload := "p4", job_type := "email",
    status := JobStatus.Pending, attempts := 0, max_attempts := 25,
    run_at := 0, lock_by := none, lock_at := none,
    done_at := none, last_error := none }

/-- A running locked row used for the reschedule scenario. -/
def rowC5 : JobRow :=
  { id := "j5", payload := "p5", job_type := "email",
    status := JobStatus.Running, attempts := 3, max_attempts := 25,
    run_at := 10, lock_by := some "w1", lock_at := some 20,
    done_at := none, last_error := none }

/-- A pending row that tick 1 of the failing schedule would have yielded. -/
def rowC6 : JobRow :=
  { id := "j6", payload := "p6", job_type := "email",
    status := JobStatus.Pending, attempts := 0, max_attempts := 25,
    run_at := 0, lock_by := none, lock_at := none,
    done_at := none, last_error := none }

/-- A tick schedule whose first tick fails at the SELECT and whose later
ticks would each produce one claimed job. -/
def exC6 : Nat → TickRes
  | 0 => { items := [], failed := true }
  | _ + 1 => { items := [some rowC6], failed := false }

/-! ## C1 -/

/-- C1: a successful `push(payload)` returning `job_id` appends exactly one
row whose `id` equals the fresh `job_id`, with `status = Pending`,
`attempts = 0`, `max_attempts = 25`, `run_at = now`; a subsequent
`fetch_by_id(job_id)` returns that row, and decoding its stored payload
gives back the pushed payload (given a round-tripping codec and a fresh
id, as `JobId::new()` guarantees). -/
theorem push_then_fetch_roundtrip {T : Type} (encode : T → String)
    (decode : String → Option T) (db : DB) (job : T)
    (newId jobType : String) (now : Int)
    (hfresh : ∀ r ∈ db, r.id ≠ newId)
    (hrt : decode (encode job) = some job) :
    (push encode db job newId jobType now).length = db.length + 1 ∧
    ∃ r, fetch_by_id (push encode db job newId jobType now) newId = some r ∧
      r.id = newId ∧ r.status = JobStatus.Pending ∧ r.attempts = 0 ∧
      r.max_attempts = 25 ∧ r.run_at = now ∧ r.lock_by = none ∧
      decode r.payload = some job := by
  constructor
  · simp [push]
  · refine ⟨{ id := newId, payload := encode job, job_type := jobType,
              status := JobStatus.Pending, attempts := 0, max_attempts := 25,
              run_at := now, lock_by := none, lock_at := none,
              done_at := none, last_error := none },
            ?_, rfl, rfl, rfl, rfl, rfl, rfl, hrt⟩
    unfold push fetch_by_id
    rw [List.find?_append]
    have hnone : db.find? (fun r => r.id = newId) = none := by
      rw [List.find?_eq_none]
      intro r hr
      simpa using hfresh r hr
    rw [hnone]
    simp

/-- Witness for C1 at a concrete input: payload `"hello"` pushed into an
empty table under fresh id `"job-1"`. -/
theorem push_then_fetch_roundtrip_witness :
    ∃ r, fetch_by_id
        (push (fun s : String => s) [] "hello" "job-1" "email" 100)
        "job-1" = some r ∧
      r.id = "job-1" ∧ r.status = JobStatus.Pending ∧ r.attempts = 0 ∧
      r.max_attempts = 25 ∧ r.run_at = 100 ∧ r.lock_by = none ∧
      some r.payload = some "hello" :=
  (push_then_fetch_roundtrip (fun s : String => s) some [] "hello" "job-1"
    "email" 100 (by simp) rfl).2

/-! ## C2 -/

/-- C2 counterexample: a pending row of the right job type whose `run_at`
equals the poll's `now` is eligible under the spec's predicate
(`run_at ≤ now`) but is not selected by the code's candidate fetch, which
requires `run_at < ?1` strictly; the claim that a just-inserted row with
`run_at = now` is selected is therefore false. -/
theorem fetch_at_now_counterexample :
    specEligible rowC2 100 "email" = true ∧
    fetchPred rowC2 100 "email" = false ∧
    streamSelect [rowC2] 100 "email" 10 = [] := by
  decide

/-- C2 amended: the candidate fetch selects a row iff `run_at < now`
(strictly), the row's `job_type` equals the worker's, and the row is
`Pending`, or `Failed` with `attempts < max_attempts`; a row whose `run_at`
equals `now` is not selected on that tick (provided the LIMIT does not
truncate, i.e. `buffer_size` is at least the table size). -/
theorem streamSelect_mem_iff (db : DB) (r : JobRow) (now : Int)
    (jobType : String) (buffer_size : Nat) (hbuf : db.length ≤ buffer_size) :
    r ∈ streamSelect db now jobType buffer_size ↔
      r ∈ db ∧ r.run_at < now ∧ r.job_type = jobType ∧
        (r.status = JobStatus.Pending ∨
          (r.status = JobStatus.Failed ∧ r.attempts < r.max_attempts)) := by
  unfold streamSelect
  rw [List.take_of_length_le
    (le_trans (List.length_filter_le _ _) hbuf)]
  simp only [List.mem_filter, fetchPred, decide_eq_true_eq]
  tauto

/-- Witness for C2's amended theorem: one tick later (`now = 101`) the same
row is selected. -/
theorem streamSelect_mem_iff_witness :
    rowC2 ∈ streamSelect [rowC2] 101 "email" 10 :=
  (streamSelect_mem_iff [rowC2] rowC2 101 "email" 10 (by decide)).mpr
    ⟨by decide, by decide, by decide, Or.inl (by decide)⟩

/-! ## C3 -/

/-- C3 counterexample: on a row that is already `Running` with
`lock_by = w1`, a repeated claim by the same worker `w1` touches nothing in
the UPDATE (the row is not `Pending`), yet the follow-on SELECT
(`WHERE id = ?1 AND lock_by = ?2 AND job_type = ?4`) still returns the row,
so `fetch_next` yields `Some(job)` for a row that was not Pending-unlocked
at claim time — refuting the claimed "if and only if". -/
theorem claim_select_without_update_counterexample :
    updateTouches rowC3 "j3" "email" = false ∧
    (fetch_next [rowC3] "j3" "w1" 60 "email").2 = some rowC3 ∧
    rowC3.status ≠ JobStatus.Pending := by
  decide

/-- C3 amended: for a candidate row, the follow-on SELECT of the compound
claim statement returns a row iff the UPDATE touched it *or* the row
already carried `lock_by = W` (with matching job type); hence `fetch_next`
returns `Some(job)` only for rows that at claim time were Pending with no
lock, or were already locked by the claiming worker.  For any worker other
than the row's current lock holder the original iff holds. -/
theorem fetch_next_some_iff (r : JobRow) (workerId : String) (now : Int)
    (jobType : String) :
    (((fetch_next [r] r.id workerId now jobType).2).isSome = true ↔
      (updateTouches r r.id jobType = true ∨
        (r.lock_by = some workerId ∧ r.job_type = jobType))) ∧
    (r.lock_by ≠ some workerId →
      (((fetch_next [r] r.id workerId now jobType).2).isSome = true ↔
        updateTouches r r.id jobType = true)) := by
  have hmain : ((fetch_next [r] r.id workerId now jobType).2).isSome = true ↔
      (updateTouches r r.id jobType = true ∨
        (r.lock_by = some workerId ∧ r.job_type = jobType)) := by
    by_cases h : updateTouches r r.id jobType = true
    · have ht : r.job_type = jobType := by
        have := of_decide_eq_true h
        exact this.2.1
      simp [fetch_next, dbUpdateClaim, dbSelectClaim, h, List.find?, ht]
    · have h0 : updateTouches r r.id jobType = false :=
        Bool.not_eq_true _ ▸ (by simpa using h)
      simp only [fetch_next, dbUpdateClaim, List.map, h0, Bool.false_eq_true,
        if_false, dbSelectClaim, List.find?]
      by_cases hsel : r.lock_by = some workerId ∧ r.job_type = jobType
      · simp [hsel, h0]
      · have : (decide (r.id = r.id ∧ r.lock_by = some workerId ∧
            r.job_type = jobType)) = false := by
          simp only [decide_eq_false_iff_not]
          intro hc
          exact hsel ⟨hc.2.1, hc.2.2⟩
        simp [this, h0, hsel]
  refine ⟨hmain, fun hne => ?_⟩
  rw [hmain]
  constructor
  · rintro (h | h)
    · exact h
    · exact absurd h.1 hne
  · exact Or.inl

/-- Witness for C3's amended theorem: for the distinct worker `w2` the
claim on the already-locked row `rowC3` yields nothing, matching
`updateTouches = false`. -/
theorem fetch_next_some_iff_witness :
    ((fetch_next [rowC3] rowC3.id "w2" 60 "email").2).isSome = true ↔
      updateTouches rowC3 rowC3.id "email" = true :=
  (fetch_next_some_iff rowC3 "w2" 60 "email").2 (by decide)

/-! ## C4 -/

/-- The row produced by a successful claim UPDATE: `status = 'Running'`,
`lock_by = ?2`, `lock_at = ?3`, other columns untouched. -/
def claimedRow (r : JobRow) (workerId : String) (now : Int) : JobRow :=
  { r with status := JobStatus.Running, lock_by := some workerId,
           lock_at := some now }

/-- On a one-row table, a claim whose UPDATE clause matches replaces the row
by its claimed version and the follow-on SELECT returns it. -/
theorem fetch_next_singleton_touched (s : JobRow) (w : String) (now : Int)
    (jt : String) (h : updateTouches s s.id jt = true) :
    fetch_next [s] s.id w now jt =
      ([claimedRow s w now], some (claimedRow s w now)) := by
  have ht : s.job_type = jt := (of_decide_eq_true h).2.1
  simp [fetch_next, dbUpdateClaim, dbSelectClaim, claimedRow, h,
    List.find?, ht]

/-- On a one-row table, a claim whose UPDATE clause does not match leaves
the row unchanged; the follow-on SELECT returns it exactly when the row
already carries the claiming worker's lock and job type. -/
theorem fetch_next_singleton_untouched (s : JobRow) (w : String) (now : Int)
    (jt : String) (h : updateTouches s s.id jt = false) :
    fetch_next [s] s.id w now jt =
      ([s], if s.lock_by = some w ∧ s.job_type = jt then some s
            else none) := by
  by_cases hc : s.lock_by = some w ∧ s.job_type = jt
  · simp [fetch_next, dbUpdateClaim, dbSelectClaim, h, List.find?, hc]
  · simp only [fetch_next, dbUpdateClaim, List.map, h, Bool.false_eq_true,
      if_false, dbSelectClaim, List.find?, if_neg hc]
    have hb : (decide (s.lock_by = some w) && decide (s.job_type = jt))
        = false := by
      by_cases hA : s.lock_by = some w
      · have hB : ¬ s.job_type = jt := fun hB => hc ⟨hA, hB⟩
        simp [hB]
      · simp [hA]
    simp [hb]

/-- C4: (i) a claim attempt by a worker `w2` on a row already `Running`
with `lock_by = w1 ≠ w2` returns `None`; (ii) when two distinct workers
claim the same single `Pending` unlocked job in either serialization
order, the first receives `Some(job)` with `status = Running` and
`lock_by = w1`, and the second — running against the updated table —
receives `None`. -/
theorem contended_claim (r : JobRow) (w1 w2 : String) (now now2 : Int)
    (jobType : String) (hw : w1 ≠ w2) (ht : r.job_type = jobType) :
    ((r.status = JobStatus.Running ∧ r.lock_by = some w1) →
      (fetch_next [r] r.id w2 now jobType).2 = none) ∧
    ((r.status = JobStatus.Pending ∧ r.lock_by = none) →
      (∃ r2, (fetch_next [r] r.id w1 now jobType).2 = some r2 ∧
        r2.status = JobStatus.Running ∧ r2.lock_by = some w1 ∧
        r2.lock_at = some now) ∧
      (fetch_next (fetch_next [r] r.id w1 now jobType).1 r.id w2 now2
        jobType).2 = none) := by
  constructor
  · rintro ⟨hst, hlk⟩
    have h0 : updateTouches r r.id jobType = false := by
      simp [updateTouches, hst]
    have hw2 : ¬ (r.lock_by = some w2) := by
      rw [hlk]
      intro hc
      exact hw (Option.some.inj hc)
    simp [fetch_next, dbUpdateClaim, dbSelectClaim, h0, List.find?, hw2]
  · rintro ⟨hst, hlk⟩
    have h1 : updateTouches r r.id jobType = true := by
      simp [updateTouches, hst, hlk, ht]
    constructor
    · refine ⟨claimedRow r w1 now, ?_, rfl, rfl, rfl⟩
      simp [fetch_next, dbUpdateClaim, dbSelectClaim, claimedRow, h1,
        List.find?, ht]
    · have hupd : (fetch_next [r] r.id w1 now jobType).1 =
          [claimedRow r w1 now] := by
        simp [fetch_next, dbUpdateClaim, claimedRow, h1]
      rw [hupd]
      have h2 : updateTouches (claimedRow r w1 now)
          (claimedRow r w1 now).id jobType = false := by
        simp [updateTouches, claimedRow]
      have hw2 : ¬ ((some w1 : Option String) = some w2) := by
        intro hc
        exact hw (Option.some.inj hc)
      have hres := fetch_next_singleton_untouched (claimedRow r w1 now) w2
        now2 jobType h2
      have h3 : ¬ ((claimedRow r w1 now).lock_by = some w2 ∧
          (claimedRow r w1 now).job_type = jobType) := by
        rintro ⟨hc, -⟩
        exact hw2 hc
      rw [show r.id = (claimedRow r w1 now).id from rfl, hres]
      exact if_neg h3

/-- Witness for C4 at the concrete pending row `rowC4` and workers
`w1 ≠ w2`: `w1` claims it, `w2` then sees `None`. -/
theorem contended_claim_witness :
    (∃ r2, (fetch_next [rowC4] rowC4.id "w1" 5 "email").2 = some r2 ∧
      r2.status = JobStatus.Running ∧ r2.lock_by = some "w1" ∧
      r2.lock_at = some 5) ∧
    (fetch_next (fetch_next [rowC4] rowC4.id "w1" 5 "email").1 rowC4.id
      "w2" 6 "email").2 = none :=
  (contended_claim rowC4 "w1" "w2" 5 6 "email" (by decide) rfl).2
    ⟨rfl, rfl⟩

/-! ## C5 -/

/-- The row produced by the `reschedule` UPDATE: `status = 'Failed'`,
`done_at`, `lock_by`, `lock_at` cleared, `run_at = now + wait`. -/
def rescheduledRow (r : JobRow) (wait now : Int) : JobRow :=
  { r with status := JobStatus.Failed, done_at := none, lock_by := none,
           lock_at := none, run_at := now + wait }

/-- C5: after `reschedule(job, wait)` on a stored job, the row read back by
its id has `status = Failed`, `lock_by` and `lock_at` cleared,
`run_at = now + wait` (hence `run_at ≥ now + wait`), and `attempts`
unchanged from the previously stored row (`done_at` is also cleared). -/
theorem reschedule_marks_failed (db : DB) (jobId : String) (wait now : Int)
    (r : JobRow) (hfetch : fetch_by_id db jobId = some r) :
    ∃ r2, fetch_by_id (reschedule db jobId wait now) jobId = some r2 ∧
      r2.status = JobStatus.Failed ∧ r2.lock_by = none ∧
      r2.lock_at = none ∧ r2.done_at = none ∧ r2.run_at = now + wait ∧
      now + wait ≤ r2.run_at ∧ r2.attempts = r.attempts := by
  induction db with
  | nil => simp [fetch_by_id] at hfetch
  | cons a l ih =>
      by_cases hid : a.id = jobId
      · have hr : r = a := by
          simp [fetch_by_id, List.find?, hid] at hfetch
          exact hfetch.symm
        subst hr
        refine ⟨rescheduledRow r wait now,
                ?_, rfl, rfl, rfl, rfl, rfl, le_refl _, rfl⟩
        simp [reschedule, rescheduledRow, fetch_by_id, List.find?, hid]
      · have hfetch2 : fetch_by_id l jobId = some r := by
          simpa [fetch_by_id, List.find?, hid] using hfetch
        have hrec := ih hfetch2
        simpa [reschedule, fetch_by_id, List.find?, hid] using hrec

/-- Witness for C5 at the concrete running locked row `rowC5`,
`wait = 30`, `now = 100`. -/
theorem reschedule_marks_failed_witness :
    ∃ r2, fetch_by_id (reschedule [rowC5] "j5" 30 100) "j5" = some r2 ∧
      r2.status = JobStatus.Failed ∧ r2.lock_by = none ∧
      r2.lock_at = none ∧ r2.done_at = none ∧ r2.run_at = 100 + 30 ∧
      (100 : Int) + 30 ≤ r2.run_at ∧ r2.attempts = rowC5.attempts :=
  reschedule_marks_failed [rowC5] "j5" 30 100 rowC5 (by decide)

/-! ## C6 -/

/-- Once the generator has ended it stays ended. -/
theorem streamDead_mono (outcomes : Nat → TickRes) (n m : Nat)
    (hnm : n ≤ m) (h : streamDead outcomes n = true) :
    streamDead outcomes m = true := by
  induction m with
  | zero =>
      have : n = 0 := Nat.le_zero.mp hnm
      subst this
      exact h
  | succ k ih =>
      rcases Nat.lt_or_ge n (k + 1) with hlt | hge
      · have hk : streamDead outcomes k = true := by
          rcases Nat.lt_succ_iff.mp hlt |>.lt_or_eq with h2 | h2
          · exact ih (Nat.le_of_lt h2)
          · subst h2; exact h
        simp [streamDead, hk]
      · have : n = k + 1 := Nat.le_antisymm hnm hge
        subst this
        exact h

/-- A dead stream emits nothing further. -/
theorem emitted_frozen (outcomes : Nat → TickRes) (n m : Nat)
    (hnm : n ≤ m) (h : streamDead outcomes n = true) :
    emitted outcomes m = emitted outcomes n := by
  induction m with
  | zero =>
      have : n = 0 := Nat.le_zero.mp hnm
      subst this; rfl
  | succ k ih =>
      rcases Nat.lt_or_ge n (k + 1) with hlt | hge
      · have hkn : n ≤ k := Nat.lt_succ_iff.mp hlt
        have hdk : streamDead outcomes k = true := streamDead_mono outcomes n k hkn h
        simp [emitted, hdk, ih hkn]
      · have : n = k + 1 := Nat.le_antisymm hnm hge
        subst this; rfl

/-- C6 counterexample: under the schedule `exC6` the SELECT of tick 0
fails; the stream emits exactly one `BrokenPipe` error item, and although
tick 1 would have yielded the claimed job `rowC6`, nothing after the error
item is ever emitted (here shown up to tick 5): `try_stream!`'s `?` ends
the generator, refuting "continues producing subsequent items on later
ticks" and "never returns end-of-stream". -/
theorem stream_error_terminates_counterexample :
    emitted exC6 1 = [StreamItem.brokenPipeItem] ∧
    tickItems (exC6 1) = [StreamItem.jobItem (some rowC6)] ∧
    emitted exC6 5 = [StreamItem.brokenPipeItem] ∧
    streamDead exC6 1 = true := by
  decide

/-- C6 amended: while no tick has failed the stream is alive and each tick
appends its claim results (so the stream never ends in the error-free
case); on the first failed tick it emits that tick's items followed by
exactly one `BrokenPipe` error item and then terminates: every later
prefix equals the prefix at the failing tick and the generator is dead. -/
theorem stream_error_item_then_dead (outcomes : Nat → TickRes) (n : Nat)
    (hok : ∀ k, k < n → (outcomes k).failed = false) :
    streamDead outcomes n = false ∧
    emitted outcomes (n + 1) = emitted outcomes n ++ tickItems (outcomes n) ∧
    ((outcomes n).failed = true →
      emitted outcomes (n + 1) = emitted outcomes n ++
        ((outcomes n).items.map StreamItem.jobItem ++
          [StreamItem.brokenPipeItem]) ∧
      ∀ m, n + 1 ≤ m → emitted outcomes m = emitted outcomes (n + 1) ∧
        streamDead outcomes m = true) := by
  have halive : streamDead outcomes n = false := by
    induction n with
    | zero => rfl
    | succ k ih =>
        have hk : streamDead outcomes k = false :=
          ih (fun j hj => hok j (Nat.lt_succ_of_lt hj))
        simp [streamDead, hk, hok k (Nat.lt_succ_self k)]
  refine ⟨halive, ?_, ?_⟩
  · simp [emitted, halive]
  · intro hfail
    constructor
    · simp [emitted, halive, tickItems, hfail]
    · intro m hm
      have hdead : streamDead outcomes (n + 1) = true := by
        simp [streamDead, hfail]
      exact ⟨emitted_frozen outcomes (n + 1) m hm hdead,
        streamDead_mono outcomes (n + 1) m hm hdead⟩

/-- Witness for C6's amended theorem at the concrete schedule `exC6` and
its failing tick 0. -/
theorem stream_error_item_then_dead_witness :
    emitted exC6 1 = emitted exC6 0 ++ tickItems (exC6 0) ∧
    streamDead exC6 0 = false :=
  ⟨(stream_error_item_then_dead exC6 0
      (fun k hk => absurd hk (Nat.not_lt_zero k))).2.1,
   (stream_error_item_then_dead exC6 0
      (fun k hk => absurd hk (Nat.not_lt_zero k))).1⟩

/-! ## C7 -/

/-- C7 (refuting the claim; the code contradicts its own design): in
`Backend::poll`, one unclaimed candidate (the stream yields
`Some(Ok(None))` — the normal "lost the claim" signal `fetch_next`
produces), one stream error item (`Some(Err(_))`), or one failed heartbeat
write each hit an `.unwrap()` and panic, terminating the joined poll task
instead of continuing. -/
theorem poll_unwrap_panics :
    dispatchIter (some (Except.ok none)) =
      Except.error "called Option::unwrap on a None value" ∧
    dispatchIter (some (Except.error "broken pipe")) =
      Except.error "called Result::unwrap on an Err value" ∧
    heartbeatIter (Except.error "db write failed") =
      Except.error "called Result::unwrap on an Err value" := by
  exact ⟨rfl, rfl, rfl⟩

/-! ## C8 -/

/-- C8 (refuting the claim; the code is unfinished): `is_empty` is
`todo!()`, so for every store state it panics with "not yet implemented"
and in particular never returns `Ok(len() == 0)` as the claim and spec
require. -/
theorem is_empty_todo_panics (db : DB) :
    is_empty db = Except.error "not yet implemented" ∧
    is_empty db ≠ Except.ok (decide (len db = 0)) := by
  exact ⟨rfl, fun h => Except.noConfusion h⟩

/-! ## C9 -/

/-- C9: `Notify::notify` is a total non-blocking function and the
`Notifier` impl returns `Ok(())` unconditionally; the buffer capacity is
fixed at 10 by `Notify::new` and preserved by `notify`; when the buffer
has free space the item is enqueued at the back, and when it is full the
channel state is unchanged (the item is silently dropped). -/
theorem notify_best_effort {T : Type} (c : Chan T) (t : T) :
    (Chan.mk0 T).cap = 10 ∧
    (c.notifierNotify t).2 = Except.ok () ∧
    (c.notify t).cap = c.cap ∧
    (c.buf.length < c.cap → (c.notify t).buf = c.buf ++ [t]) ∧
    (c.cap ≤ c.buf.length → c.notify t = c) := by
  refine ⟨rfl, rfl, ?_, ?_, ?_⟩
  · by_cases h : c.buf.length < c.cap
    · simp [Chan.notify, Chan.trySend, h]
    · simp [Chan.notify, Chan.trySend, h]
  · intro h
    simp [Chan.notify, Chan.trySend, h]
  · intro h
    simp [Chan.notify, Chan.trySend, Nat.not_lt.mpr h]

/-- Witness for C9 at a fresh channel of `Nat` with free space. -/
theorem notify_best_effort_witness :
    ((Chan.mk0 Nat).notifierNotify 7).2 = Except.ok () ∧
    ((Chan.mk0 Nat).notify 7).buf = [] ++ [7] :=
  ⟨(notify_best_effort (Chan.mk0 Nat) 7).2.1,
   (notify_best_effort (Chan.mk0 Nat) 7).2.2.2.1 (by decide)⟩

/-! ## C10 -/

/-- C10: every `Notify` handle owns a `Sender` (`Notify::new` stores one,
`Clone` clones it), so while a consumer holds a handle at least one sender
is alive and a `notified()` poll can observe an item or stay pending but
never the closed channel — the `expect("sender is dropped")` branch is
unreachable for a live handle, and cloning only adds senders. -/
theorem notified_never_closed {T : Type} (c : Chan T)
    (hlive : 1 ≤ c.handleCount) :
    c.recvPoll ≠ RecvOutcome.closed ∧
    (Chan.mk0 T).handleCount = 1 ∧
    c.cloneHandle.handleCount = c.handleCount + 1 ∧
    c.cloneHandle.recvPoll ≠ RecvOutcome.closed := by
  have hne : ∀ d : Chan T, 1 ≤ d.handleCount →
      d.recvPoll ≠ RecvOutcome.closed := by
    intro d hd
    unfold Chan.recvPoll
    cases hbuf : d.buf with
    | cons x xs => exact fun h => RecvOutcome.noConfusion h
    | nil =>
        have h0 : ¬ d.handleCount = 0 := by omega
        simp only [if_neg h0]
        exact fun h => RecvOutcome.noConfusion h
  refine ⟨hne c hlive, rfl, rfl, ?_⟩
  exact hne c.cloneHandle (by simp [Chan.cloneHandle])

/-- Witness for C10 at a fresh `Notify<Nat>` handle. -/
theorem notified_never_closed_witness :
    (Chan.mk0 Nat).recvPoll ≠ RecvOutcome.closed :=
  (notified_never_closed (Chan.mk0 Nat) (by decide)).1

end Apalis
